import Mathlib

/-!
Verification of the course-catalog web application (`app.py`).

The application keeps a catalog of course records in a single JSON file
(`course_catalog.json`) and exposes four routes: home, catalog listing,
course details by code, and an add-course form.  We embed the functional
core shallowly:

* a course record, as persisted, is a JSON object: an association list of
  string keys to string values (`Course`);
* the submitted form (`request.form`) is an association list as well
  (`Form`); Flask returns the first value for a key and raises
  `BadRequestKeyError` on a missing key, which we model by `Except` with
  the missing key's name as the error;
* the persisted file is `FileState`: absent, present with a valid JSON
  array of records, or present but corrupt (not valid JSON), in which
  case `json.load` raises `JSONDecodeError`;
* each handler is a function from its inputs and the file state to
  `Except String` of (result, new file state); an `Except.error` models a
  Python exception escaping the handler, i.e. a failed request.
-/

/-- A persisted course record: a JSON object with string values. -/
abbrev Course := List (String × String)

/-- The submitted form data (`request.form`): first binding wins. -/
abbrev Form := List (String × String)

/-- The state of the persisted file `course_catalog.json`. -/
inductive FileState where
  | absent
  | valid (courses : List Course)
  | corrupt
deriving DecidableEq, Repr

/-- `load_courses` from `app.py`: empty list when the file does not
exist, the deserialized array when it is valid JSON, and a raised
`JSONDecodeError` when the content is corrupt. -/
def load_courses : FileState → Except String (List Course)
  | FileState.absent => Except.ok []
  | FileState.valid cs => Except.ok cs
  | FileState.corrupt => Except.error "JSONDecodeError"

/-- `save_courses` from `app.py`: load the existing courses, append the
new record, rewrite the whole file. -/
def save_courses (data : Course) (st : FileState) : Except String FileState :=
  match load_courses st with
  | Except.error e => Except.error e
  | Except.ok courses => Except.ok (FileState.valid (courses ++ [data]))

/-- The course sequence handed to the catalog template by the
`/catalog` route (the spec's `listCourses`): it is exactly
`load_courses()`; rendering is an external concern. -/
def listCourses (st : FileState) : Except String (List Course) :=
  load_courses st

/-- `request.form[k]`: the first value bound to `k`, or a raised
`BadRequestKeyError` naming `k` when the key is missing. -/
def getField (form : Form) (k : String) : Except String String :=
  match form.lookup k with
  | some v => Except.ok v
  | none => Except.error k

/-- The required fields, in the order the `add_course` validation
checks them (line 174 of `app.py`). -/
def requiredFields : List String :=
  ["code", "name", "instructor", "semester", "schedule",
   "classroom", "prerequisites", "grading"]

/-- The chained `or` of emptiness tests in `add_course`: fields are
read left to right, each read may raise on a missing key, and the chain
short-circuits at the first empty value. -/
def checkEmptySeq (form : Form) : List String → Except String Bool
  | [] => Except.ok false
  | k :: ks =>
    match getField form k with
    | Except.error e => Except.error e
    | Except.ok v => if v = "" then Except.ok true else checkEmptySeq form ks

/-- The validation condition of `add_course`:
`request.form['code'] == "" or ... or request.form['grading'] == ""`. -/
def anyRequiredEmpty (form : Form) : Except String Bool :=
  checkEmptySeq form requiredFields

/-- The `data` dict literal of `add_course`, with reads in source
order (`description` is read twice; the duplicate key keeps its first
position and the last value, as in Python). -/
def buildData (form : Form) : Except String Course :=
  match getField form "code" with
  | Except.error e => Except.error e
  | Except.ok code =>
  match getField form "name" with
  | Except.error e => Except.error e
  | Except.ok name =>
  match getField form "description" with
  | Except.error e => Except.error e
  | Except.ok _ =>
  match getField form "instructor" with
  | Except.error e => Except.error e
  | Except.ok instr =>
  match getField form "semester" with
  | Except.error e => Except.error e
  | Except.ok semester =>
  match getField form "classroom" with
  | Except.error e => Except.error e
  | Except.ok classroom =>
  match getField form "schedule" with
  | Except.error e => Except.error e
  | Except.ok schedule =>
  match getField form "prerequisites" with
  | Except.error e => Except.error e
  | Except.ok prereq =>
  match getField form "grading" with
  | Except.error e => Except.error e
  | Except.ok grading =>
  match getField form "description" with
  | Except.error e => Except.error e
  | Except.ok descr =>
    Except.ok [("code", code), ("name", name), ("description", descr),
      ("instructor", instr), ("semester", semester), ("classroom", classroom),
      ("schedule", schedule), ("prerequisites", prereq), ("grading", grading)]

/-- The HTTP method of a request to `/add_course`. -/
inductive Method where
  | get
  | post
deriving DecidableEq, Repr

/-- The user-visible outcome of the `add_course` route. -/
inductive AddResult where
  /-- Flash "Please fill all the fields." and redirect back to the form. -/
  | validationError
  /-- Flash success naming the course code and redirect to the catalog. -/
  | success (code : String)
  /-- GET: render the add-course form. -/
  | renderForm
deriving DecidableEq, Repr

/-- The `add_course` route of `app.py`.  On POST it validates the eight
required fields for emptiness, builds the `data` record, and persists it
via `save_courses`; on GET it renders the form. -/
def add_course (method : Method) (form : Form) (st : FileState) :
    Except String (AddResult × FileState) :=
  match method with
  | Method.get => Except.ok (AddResult.renderForm, st)
  | Method.post =>
    match anyRequiredEmpty form with
    | Except.error e => Except.error e
    | Except.ok true => Except.ok (AddResult.validationError, st)
    | Except.ok false =>
      match buildData form with
      | Except.error e => Except.error e
      | Except.ok data =>
        match save_courses data st with
        | Except.error e => Except.error e
        | Except.ok st' =>
          Except.ok (AddResult.success ((data.lookup "code").getD ""), st')

/-- The user-visible outcome of the `/course/<code>` route. -/
inductive DetailsResult where
  /-- Render `course_details.html` for this record. -/
  | found (c : Course)
  /-- Flash "No course found" and redirect to the catalog. -/
  | notFound
deriving DecidableEq, Repr

/-- The generator expression of `course_details`:
`next((course for course in courses if course['code'] == code), None)`.
Each candidate's `course['code']` access may raise `KeyError`. -/
def findFirst : List Course → String → Except String (Option Course)
  | [], _ => Except.ok none
  | c :: rest, code =>
    match c.lookup "code" with
    | none => Except.error "KeyError"
    | some v => if v = code then Except.ok (some c) else findFirst rest code

/-- The `/course/<code>` route of `app.py`: load the courses, scan for
the first record whose `code` equals the input, flash and redirect when
none matches. -/
def course_details (st : FileState) (code : String) :
    Except String DetailsResult :=
  match load_courses st with
  | Except.error e => Except.error e
  | Except.ok courses =>
    match findFirst courses code with
    | Except.error e => Except.error e
    | Except.ok (some c) => Except.ok (DetailsResult.found c)
    | Except.ok none => Except.ok DetailsResult.notFound

/-- Persist a list of records by appending each in turn with
`save_courses`. -/
def persistAll : List Course → FileState → Except String FileState
  | [], st => Except.ok st
  | r :: rs, st =>
    match save_courses r st with
    | Except.error e => Except.error e
    | Except.ok st' => persistAll rs st'

/-- On a list whose records all carry a `code` key, the handler's scan
is `List.find?` with the case-sensitive equality test. -/
theorem findFirst_eq_find (l : List Course) (code : String)
    (h : ∀ c ∈ l, (List.lookup "code" c).isSome) :
    findFirst l code =
      Except.ok (l.find? fun c => List.lookup "code" c == some code) := by
  induction l with
  | nil => rfl
  | cons c rest ih =>
    obtain ⟨v, hv⟩ :=
      Option.isSome_iff_exists.mp (h c (List.mem_cons_self c rest))
    by_cases hvc : v = code
    · subst hvc
      simp [findFirst, hv, List.find?]
    · have ih' := ih fun c hc => h c (List.mem_cons_of_mem _ hc)
      have hb : (v == code) = false := beq_eq_false_iff_ne.mpr hvc
      simp [findFirst, hv, hvc, List.find?, ih', hb]

/-- C2: `getCourse(code)` returns the first record (insertion order)
whose `code` field equals the input, by case-sensitive exact string
equality, when a match exists, and the NotFound notice-and-redirect
when none does. -/
theorem getCourse_first_match (courses : List Course) (code : String)
    (h : ∀ c ∈ courses, (List.lookup "code" c).isSome) :
    course_details (FileState.valid courses) code =
      Except.ok ((courses.find? fun c =>
        List.lookup "code" c == some code).elim
          DetailsResult.notFound DetailsResult.found) := by
  simp only [course_details, load_courses, findFirst_eq_find courses code h]
  cases courses.find? fun c => List.lookup "code" c == some code <;> rfl

/-- Witness for C2 at a concrete two-record catalog: the first of two
records with code "CS 203" is returned, and an unknown code gives
NotFound via the same theorem instance evaluated at another code. -/
theorem getCourse_first_match_witness :
    course_details
      (FileState.valid [[("code", "CS 203"), ("name", "first")],
        [("code", "CS 203"), ("name", "second")]]) "CS 203"
      = Except.ok (DetailsResult.found
          [("code", "CS 203"), ("name", "first")]) := by
  have h := getCourse_first_match
    [[("code", "CS 203"), ("name", "first")],
     [("code", "CS 203"), ("name", "second")]] "CS 203" (by decide)
  simpa using h

/-- C7: with no persisted file, `load_courses` and hence the catalog
listing return the empty sequence as a non-error result. -/
theorem listCourses_empty_store :
    load_courses FileState.absent = Except.ok [] ∧
    listCourses FileState.absent = Except.ok [] :=
  ⟨rfl, rfl⟩

/-- C8: a corrupt persisted file makes `load_courses` raise
`JSONDecodeError`; the listing and details handlers do not catch it
(the request fails), and no course data is fabricated in its place. -/
theorem corrupt_store_propagates :
    load_courses FileState.corrupt = Except.error "JSONDecodeError" ∧
    listCourses FileState.corrupt = Except.error "JSONDecodeError" ∧
    (∀ code, course_details FileState.corrupt code =
      Except.error "JSONDecodeError") :=
  ⟨rfl, rfl, fun _ => rfl⟩

/-- Appending records one at a time to a valid file extends the stored
list on the right. -/
theorem persistAll_valid (records : List Course) :
    ∀ prev : List Course,
      persistAll records (FileState.valid prev) =
        Except.ok (FileState.valid (prev ++ records)) := by
  induction records with
  | nil => intro prev; simp [persistAll]
  | cons r rs ih =>
    intro prev
    simp [persistAll, save_courses, load_courses, ih (prev ++ [r])]

/-- C6: persisting N records by appending each in turn to an initially
absent store and then loading yields the same N records in the same
order (serialization round-trip). -/
theorem persist_load_roundtrip (records : List Course) :
    ∃ st', persistAll records FileState.absent = Except.ok st' ∧
      load_courses st' = Except.ok records := by
  cases records with
  | nil => exact ⟨FileState.absent, rfl, rfl⟩
  | cons r rs =>
    refine ⟨FileState.valid (r :: rs), ?_, rfl⟩
    have h := persistAll_valid rs [r]
    simp only [persistAll, save_courses, load_courses] at h ⊢
    simpa using h

/-- The success path of `add_course` on POST: when all eight required
fields are bound to non-empty strings and `description` is bound (to
anything, even `""`), the handler appends exactly the nine-field record
built from the submitted strings and reports success with the code. -/
theorem add_course_success_eq (form : Form) (st : FileState)
    (prev : List Course) (vc vn vi vsem vsch vcl vp vg vd : String)
    (hload : load_courses st = Except.ok prev)
    (hc : form.lookup "code" = some vc) (hc0 : vc ≠ "")
    (hn : form.lookup "name" = some vn) (hn0 : vn ≠ "")
    (hi : form.lookup "instructor" = some vi) (hi0 : vi ≠ "")
    (hsem : form.lookup "semester" = some vsem) (hsem0 : vsem ≠ "")
    (hsch : form.lookup "schedule" = some vsch) (hsch0 : vsch ≠ "")
    (hcl : form.lookup "classroom" = some vcl) (hcl0 : vcl ≠ "")
    (hp : form.lookup "prerequisites" = some vp) (hp0 : vp ≠ "")
    (hg : form.lookup "grading" = some vg) (hg0 : vg ≠ "")
    (hd : form.lookup "description" = some vd) :
    add_course Method.post form st =
      Except.ok (AddResult.success vc, FileState.valid (prev ++
        [[("code", vc), ("name", vn), ("description", vd),
          ("instructor", vi), ("semester", vsem), ("classroom", vcl),
          ("schedule", vsch), ("prerequisites", vp), ("grading", vg)]])) := by
  simp only [add_course, anyRequiredEmpty, requiredFields, checkEmptySeq,
    getField, hc, hn, hi, hsem, hsch, hcl, hp, hg, hd, buildData,
    save_courses, hload]
  simp [hc0, hn0, hi0, hsem0, hsch0, hcl0, hp0, hg0, List.lookup]

/-- C1 (amended): when every required field is bound to a non-empty
string and the `description` key is also present (its value may be
anything, including empty), `addCourse` followed by `listCourses`
yields the previous persisted sequence with exactly one record appended
at the end whose field values are exactly the submitted strings, with
no trimming or normalization. -/
theorem addCourse_appends_exact (form : Form) (st : FileState)
    (prev : List Course) (vc vn vi vsem vsch vcl vp vg vd : String)
    (hload : load_courses st = Except.ok prev)
    (hc : form.lookup "code" = some vc) (hc0 : vc ≠ "")
    (hn : form.lookup "name" = some vn) (hn0 : vn ≠ "")
    (hi : form.lookup "instructor" = some vi) (hi0 : vi ≠ "")
    (hsem : form.lookup "semester" = some vsem) (hsem0 : vsem ≠ "")
    (hsch : form.lookup "schedule" = some vsch) (hsch0 : vsch ≠ "")
    (hcl : form.lookup "classroom" = some vcl) (hcl0 : vcl ≠ "")
    (hp : form.lookup "prerequisites" = some vp) (hp0 : vp ≠ "")
    (hg : form.lookup "grading" = some vg) (hg0 : vg ≠ "")
    (hd : form.lookup "description" = some vd) :
    ∃ st', add_course Method.post form st =
        Except.ok (AddResult.success vc, st') ∧
      listCourses st' = Except.ok (prev ++
        [[("code", vc), ("name", vn), ("description", vd),
          ("instructor", vi), ("semester", vsem), ("classroom", vcl),
          ("schedule", vsch), ("prerequisites", vp), ("grading", vg)]]) :=
  ⟨_, add_course_success_eq form st prev vc vn vi vsem vsch vcl vp vg vd
      hload hc hc0 hn hn0 hi hi0 hsem hsem0 hsch hsch0 hcl hcl0
      hp hp0 hg hg0 hd, rfl⟩

/-- Counterexample to C1 as stated: a form in which every required
field is a non-empty string but the optional `description` key is
absent makes the handler raise `BadRequestKeyError` on
`request.form['description']`; nothing is appended. -/
theorem addCourse_missing_description_fails :
    add_course Method.post
      [("code", "CS 203"), ("name", "Software and Tools for AI"),
       ("instructor", "Prof. X"), ("semester", "Fall 2025"),
       ("schedule", "MWF 10-11"), ("classroom", "AB7/109"),
       ("prerequisites", "Python"), ("grading", "50/50")]
      FileState.absent = Except.error "description" := by
  rfl

/-- Witness for the amended C1 at a concrete form and an absent store:
the record with exactly the submitted strings is appended. -/
theorem addCourse_appends_exact_witness :
    ∃ st', add_course Method.post
        [("code", "CS 203"), ("name", "Software and Tools for AI"),
         ("instructor", "Prof. X"), ("semester", "Fall 2025"),
         ("schedule", "MWF 10-11"), ("classroom", "AB7/109"),
         ("prerequisites", "Python"), ("grading", "50/50"),
         ("description", "intro course")] FileState.absent =
        Except.ok (AddResult.success "CS 203", st') ∧
      listCourses st' = Except.ok
        [[("code", "CS 203"), ("name", "Software and Tools for AI"),
          ("description", "intro course"), ("instructor", "Prof. X"),
          ("semester", "Fall 2025"), ("classroom", "AB7/109"),
          ("schedule", "MWF 10-11"), ("prerequisites", "Python"),
          ("grading", "50/50")]] :=
  addCourse_appends_exact _ FileState.absent [] "CS 203"
    "Software and Tools for AI" "Prof. X" "Fall 2025" "MWF 10-11"
    "AB7/109" "Python" "50/50" "intro course" rfl
    rfl (by decide) rfl (by decide) rfl (by decide) rfl (by decide)
    rfl (by decide) rfl (by decide) rfl (by decide) rfl (by decide) rfl

/-- When every checked key is bound and at least one is bound to `""`,
the chained emptiness test evaluates to `True` without raising. -/
theorem checkEmptySeq_of_empty_field (form : Form) :
    ∀ ks : List String,
      (∀ k ∈ ks, (form.lookup k).isSome) →
      (∃ k ∈ ks, form.lookup k = some "") →
      checkEmptySeq form ks = Except.ok true := by
  intro ks
  induction ks with
  | nil =>
    intro _ hex
    simp at hex
  | cons k ks ih =>
    intro hall hex
    obtain ⟨v, hv⟩ :=
      Option.isSome_iff_exists.mp (hall k (List.mem_cons_self k ks))
    by_cases hv0 : v = ""
    · subst hv0
      simp [checkEmptySeq, getField, hv]
    · have hex' : ∃ k' ∈ ks, form.lookup k' = some "" := by
        obtain ⟨k', hk', he⟩ := hex
        rcases List.mem_cons.mp hk' with rfl | hmem
        · rw [hv] at he
          cases he
          exact absurd rfl hv0
        · exact ⟨k', hmem, he⟩
      have ih' := ih (fun k' hk' => hall k' (List.mem_cons_of_mem _ hk')) hex'
      simp [checkEmptySeq, getField, hv, hv0, ih']

/-- C3 (amended): when every required key is present and at least one
required field is the empty string, the POST handler flashes the
validation notice and redirects back to the form, leaving the persisted
state unchanged. -/
theorem addCourse_empty_field_validation (form : Form) (st : FileState)
    (hall : ∀ k ∈ requiredFields, (form.lookup k).isSome)
    (hex : ∃ k ∈ requiredFields, form.lookup k = some "") :
    add_course Method.post form st =
      Except.ok (AddResult.validationError, st) := by
  simp only [add_course, anyRequiredEmpty,
    checkEmptySeq_of_empty_field form requiredFields hall hex]

/-- Counterexample to C3 as stated: in a form whose only binding is
`grading` mapped to `""`, the required field `grading` is present and
empty, yet the handler raises `BadRequestKeyError` on
`request.form['code']` before reaching any emptiness test, so no
validation notice is produced. -/
theorem addCourse_empty_field_not_validation :
    add_course Method.post [("grading", "")] (FileState.valid []) =
      Except.error "code" ∧
    add_course Method.post [("grading", "")] (FileState.valid []) ≠
      Except.ok (AddResult.validationError, FileState.valid []) := by
  constructor
  · rfl
  · intro h
    rw [show add_course Method.post [("grading", "")]
        (FileState.valid []) = Except.error "code" from rfl] at h
    exact Except.noConfusion h

/-- Witness for the amended C3: a fully-bound form whose `instructor`
field is empty is rejected with the validation notice and the store is
left as it was. -/
theorem addCourse_empty_field_validation_witness :
    add_course Method.post
      [("code", "CS 203"), ("name", "Software and Tools for AI"),
       ("instructor", ""), ("semester", "Fall 2025"),
       ("schedule", "MWF 10-11"), ("classroom", "AB7/109"),
       ("prerequisites", "Python"), ("grading", "50/50"),
       ("description", "d")]
      (FileState.valid [[("code", "X")]]) =
      Except.ok (AddResult.validationError,
        FileState.valid [[("code", "X")]]) :=
  addCourse_empty_field_validation _ _ (by decide)
    ⟨"instructor", by decide, by decide⟩

/-- When no checked key is bound to `""` but some checked key is
missing, the chained emptiness test raises on the first missing key. -/
theorem checkEmptySeq_of_missing_key (form : Form) :
    ∀ ks : List String,
      (∀ k ∈ ks, form.lookup k ≠ some "") →
      (∃ k ∈ ks, form.lookup k = none) →
      ∃ e, checkEmptySeq form ks = Except.error e := by
  intro ks
  induction ks with
  | nil =>
    intro _ hex
    simp at hex
  | cons k ks ih =>
    intro hne hex
    cases hk : form.lookup k with
    | none => exact ⟨k, by simp [checkEmptySeq, getField, hk]⟩
    | some v =>
      have hv0 : v ≠ "" := by
        intro hv
        exact hne k (List.mem_cons_self k ks) (by rw [hk, hv])
      have hex' : ∃ k' ∈ ks, form.lookup k' = none := by
        obtain ⟨k', hk', he⟩ := hex
        rcases List.mem_cons.mp hk' with rfl | hmem
        · rw [hk] at he
          cases he
        · exact ⟨k', hmem, he⟩
      obtain ⟨e, he⟩ :=
        ih (fun k' hk' => hne k' (List.mem_cons_of_mem _ hk')) hex'
      exact ⟨e, by simp [checkEmptySeq, getField, hk, hv0, he]⟩

/-- C4 (amended): when some required key is entirely absent from the
form and no submitted required field is empty, the POST handler raises
`BadRequestKeyError` (a failed request), not the validation notice; the
store is untouched because the failure precedes any write. -/
theorem addCourse_missing_key_raises (form : Form) (st : FileState)
    (hne : ∀ k ∈ requiredFields, form.lookup k ≠ some "")
    (habs : ∃ k ∈ requiredFields, form.lookup k = none) :
    ∃ e, add_course Method.post form st = Except.error e := by
  obtain ⟨e, he⟩ := checkEmptySeq_of_missing_key form requiredFields hne habs
  exact ⟨e, by simp [add_course, anyRequiredEmpty, he]⟩

/-- Counterexample to C4 as stated: a form with every field except
`code` raises `BadRequestKeyError` on `request.form['code']` instead of
returning the validation notice. -/
theorem addCourse_missing_key_not_validation :
    add_course Method.post
      [("name", "N"), ("instructor", "I"), ("semester", "S"),
       ("schedule", "MWF"), ("classroom", "R"), ("prerequisites", "P"),
       ("grading", "G"), ("description", "D")] (FileState.valid []) =
      Except.error "code" ∧
    add_course Method.post
      [("name", "N"), ("instructor", "I"), ("semester", "S"),
       ("schedule", "MWF"), ("classroom", "R"), ("prerequisites", "P"),
       ("grading", "G"), ("description", "D")] (FileState.valid []) ≠
      Except.ok (AddResult.validationError, FileState.valid []) := by
  constructor
  · rfl
  · intro h
    rw [show add_course Method.post
        [("name", "N"), ("instructor", "I"), ("semester", "S"),
         ("schedule", "MWF"), ("classroom", "R"), ("prerequisites", "P"),
         ("grading", "G"), ("description", "D")] (FileState.valid []) =
        Except.error "code" from rfl] at h
    exact Except.noConfusion h

/-- Witness for the amended C4: a form missing the `semester` key, with
all submitted fields non-empty, makes the request fail. -/
theorem addCourse_missing_key_raises_witness :
    ∃ e, add_course Method.post
      [("code", "CS 101"), ("name", "N"), ("instructor", "I"),
       ("schedule", "MWF"), ("classroom", "R"), ("prerequisites", "P"),
       ("grading", "G")] FileState.absent = Except.error e :=
  addCourse_missing_key_raises _ FileState.absent (by decide)
    ⟨"semester", by decide, by decide⟩

/-- C5 (amended): with all required fields present and non-empty,
`addCourse` succeeds when the `description` key is present even if its
value is the empty string; the key itself must be present, since the
handler reads `request.form['description']` unconditionally. -/
theorem addCourse_empty_description_ok (form : Form) (st : FileState)
    (prev : List Course) (vc vn vi vsem vsch vcl vp vg : String)
    (hload : load_courses st = Except.ok prev)
    (hc : form.lookup "code" = some vc) (hc0 : vc ≠ "")
    (hn : form.lookup "name" = some vn) (hn0 : vn ≠ "")
    (hi : form.lookup "instructor" = some vi) (hi0 : vi ≠ "")
    (hsem : form.lookup "semester" = some vsem) (hsem0 : vsem ≠ "")
    (hsch : form.lookup "schedule" = some vsch) (hsch0 : vsch ≠ "")
    (hcl : form.lookup "classroom" = some vcl) (hcl0 : vcl ≠ "")
    (hp : form.lookup "prerequisites" = some vp) (hp0 : vp ≠ "")
    (hg : form.lookup "grading" = some vg) (hg0 : vg ≠ "")
    (hd : form.lookup "description" = some "") :
    ∃ st', add_course Method.post form st =
      Except.ok (AddResult.success vc, st') :=
  ⟨_, add_course_success_eq form st prev vc vn vi vsem vsch vcl vp vg ""
      hload hc hc0 hn hn0 hi hi0 hsem hsem0 hsch hsch0 hcl hcl0
      hp hp0 hg hg0 hd⟩

/-- Counterexample to C5 as stated: all required fields present and
non-empty but no `description` key at all; the handler raises
`BadRequestKeyError` instead of succeeding. -/
theorem addCourse_absent_description_fails :
    add_course Method.post
      [("code", "EE 201"), ("name", "Circuits"), ("instructor", "Prof. Y"),
       ("semester", "Spring 2026"), ("schedule", "TTh 9-10"),
       ("classroom", "LT1"), ("prerequisites", "None"),
       ("grading", "exam")] (FileState.valid []) =
      Except.error "description" := by
  rfl

/-- Witness for the amended C5: a concrete form with `description`
bound to the empty string is accepted. -/
theorem addCourse_empty_description_ok_witness :
    ∃ st', add_course Method.post
      [("code", "EE 201"), ("name", "Circuits"), ("instructor", "Prof. Y"),
       ("semester", "Spring 2026"), ("schedule", "TTh 9-10"),
       ("classroom", "LT1"), ("prerequisites", "None"),
       ("grading", "exam"), ("description", "")] FileState.absent =
      Except.ok (AddResult.success "EE 201", st') :=
  addCourse_empty_description_ok _ FileState.absent [] "EE 201" "Circuits"
    "Prof. Y" "Spring 2026" "TTh 9-10" "LT1" "None" "exam" rfl
    rfl (by decide) rfl (by decide) rfl (by decide) rfl (by decide)
    rfl (by decide) rfl (by decide) rfl (by decide) rfl (by decide) rfl

/-- C9: uniqueness of `code` is never enforced.  If the stored catalog
already has a record with the submitted code, a valid `addCourse` still
succeeds and appends a duplicate record; lookup by that code afterwards
returns the first match (a pre-existing record), not the new one. -/
theorem addCourse_duplicate_code_ok (form : Form) (st : FileState)
    (prev : List Course) (vc vn vi vsem vsch vcl vp vg vd : String)
    (hload : load_courses st = Except.ok prev)
    (hkeys : ∀ c ∈ prev, (List.lookup "code" c).isSome)
    (hdup : ∃ c0 ∈ prev, List.lookup "code" c0 = some vc)
    (hc : form.lookup "code" = some vc) (hc0 : vc ≠ "")
    (hn : form.lookup "name" = some vn) (hn0 : vn ≠ "")
    (hi : form.lookup "instructor" = some vi) (hi0 : vi ≠ "")
    (hsem : form.lookup "semester" = some vsem) (hsem0 : vsem ≠ "")
    (hsch : form.lookup "schedule" = some vsch) (hsch0 : vsch ≠ "")
    (hcl : form.lookup "classroom" = some vcl) (hcl0 : vcl ≠ "")
    (hp : form.lookup "prerequisites" = some vp) (hp0 : vp ≠ "")
    (hg : form.lookup "grading" = some vg) (hg0 : vg ≠ "")
    (hd : form.lookup "description" = some vd) :
    ∃ st' c1,
      add_course Method.post form st =
        Except.ok (AddResult.success vc, st') ∧
      listCourses st' = Except.ok (prev ++
        [[("code", vc), ("name", vn), ("description", vd),
          ("instructor", vi), ("semester", vsem), ("classroom", vcl),
          ("schedule", vsch), ("prerequisites", vp), ("grading", vg)]]) ∧
      prev.find? (fun c => List.lookup "code" c == some vc) = some c1 ∧
      course_details st' vc = Except.ok (DetailsResult.found c1) := by
  have hadd := add_course_success_eq form st prev vc vn vi vsem vsch vcl
    vp vg vd hload hc hc0 hn hn0 hi hi0 hsem hsem0 hsch hsch0 hcl hcl0
    hp hp0 hg hg0 hd
  have hsome : (prev.find? fun c =>
      List.lookup "code" c == some vc).isSome := by
    apply List.find?_isSome.mpr
    obtain ⟨c0, hc0m, hc0eq⟩ := hdup
    exact ⟨c0, hc0m, by simp [hc0eq]⟩
  obtain ⟨c1, hc1⟩ := Option.isSome_iff_exists.mp hsome
  refine ⟨_, c1, hadd, rfl, hc1, ?_⟩
  have hkeys' : ∀ c ∈ prev ++
      [[("code", vc), ("name", vn), ("description", vd),
        ("instructor", vi), ("semester", vsem), ("classroom", vcl),
        ("schedule", vsch), ("prerequisites", vp), ("grading", vg)]],
      (List.lookup "code" c).isSome := by
    intro c hcm
    rcases List.mem_append.mp hcm with hcm | hcm
    · exact hkeys c hcm
    · simp only [List.mem_singleton] at hcm
      subst hcm
      simp [List.lookup]
  have hff := findFirst_eq_find _ vc hkeys'
  simp only [course_details, load_courses, hff]
  simp [List.find?_append, hc1]

/-- Witness for C9: adding "CS 203" a second time appends a duplicate
and lookup still returns the original record. -/
theorem addCourse_duplicate_code_ok_witness :
    ∃ st' c1,
      add_course Method.post
        [("code", "CS 203"), ("name", "new version"),
         ("instructor", "Prof. Z"), ("semester", "Fall 2026"),
         ("schedule", "MWF 9-10"), ("classroom", "AB1/101"),
         ("prerequisites", "None"), ("grading", "exam"),
         ("description", "again")]
        (FileState.valid [[("code", "CS 203"), ("name", "old version")]]) =
        Except.ok (AddResult.success "CS 203", st') ∧
      listCourses st' = Except.ok
        ([[("code", "CS 203"), ("name", "old version")]] ++
          [[("code", "CS 203"), ("name", "new version"),
            ("description", "again"), ("instructor", "Prof. Z"),
            ("semester", "Fall 2026"), ("classroom", "AB1/101"),
            ("schedule", "MWF 9-10"), ("prerequisites", "None"),
            ("grading", "exam")]]) ∧
      [[("code", "CS 203"), ("name", "old version")]].find?
        (fun c => List.lookup "code" c == some "CS 203") = some c1 ∧
      course_details st' "CS 203" =
        Except.ok (DetailsResult.found c1) :=
  addCourse_duplicate_code_ok _ _ [[("code", "CS 203"), ("name", "old version")]]
    "CS 203" "new version" "Prof. Z" "Fall 2026" "MWF 9-10" "AB1/101"
    "None" "exam" "again" rfl (by decide)
    ⟨[("code", "CS 203"), ("name", "old version")], by decide, by decide⟩
    rfl (by decide) rfl (by decide) rfl (by decide) rfl (by decide)
    rfl (by decide) rfl (by decide) rfl (by decide) rfl (by decide) rfl

/-- Any record the `data` dict literal produces has exactly the nine
keys of the literal, in its key order. -/
theorem buildData_keys (form : Form) (data : Course)
    (h : buildData form = Except.ok data) :
    data.map Prod.fst =
      ["code", "name", "description", "instructor", "semester",
       "classroom", "schedule", "prerequisites", "grading"] := by
  unfold buildData at h
  repeat' split at h
  all_goals first
    | exact Except.noConfusion h
    | (injection h with h; subst h; rfl)

/-- C10: every record persisted by a successful `addCourse` has exactly
the nine keys code, name, description, instructor, semester, classroom,
schedule, prerequisites, grading; any extra submitted field (such as
`credits`) is discarded and never persisted. -/
theorem addCourse_persists_exactly_nine_keys (form : Form)
    (st : FileState) (s : String) (st' : FileState)
    (h : add_course Method.post form st =
      Except.ok (AddResult.success s, st')) :
    ∃ prev data, load_courses st = Except.ok prev ∧
      st' = FileState.valid (prev ++ [data]) ∧
      data.map Prod.fst =
        ["code", "name", "description", "instructor", "semester",
         "classroom", "schedule", "prerequisites", "grading"] ∧
      "credits" ∉ data.map Prod.fst := by
  simp only [add_course] at h
  split at h
  · exact Except.noConfusion h
  · simp at h
  · split at h
    · exact Except.noConfusion h
    · split at h
      · exact Except.noConfusion h
      · rename_i data hB hX st2 hS
        clear hX
        simp only [Except.ok.injEq, Prod.mk.injEq] at h
        obtain ⟨-, hst⟩ := h
        unfold save_courses at hS
        cases hL : load_courses st with
        | error e =>
          rw [hL] at hS
          exact Except.noConfusion hS
        | ok prev =>
          rw [hL] at hS
          injection hS with hS
          have hkeys := buildData_keys form data hB
          refine ⟨prev, data, rfl, ?_, hkeys, ?_⟩
          · rw [← hst, ← hS]
          · rw [hkeys]
            decide

/-- Witness for C10: a form that also submits a `credits` field; the
persisted record carries exactly the nine keys and no `credits`. -/
theorem addCourse_persists_exactly_nine_keys_witness :
    ∃ prev data, load_courses FileState.absent = Except.ok prev ∧
      FileState.valid [[("code", "MA 101"), ("name", "Calculus"),
        ("description", ""), ("instructor", "Prof. W"),
        ("semester", "Fall 2025"), ("classroom", "LT2"),
        ("schedule", "TTh 2-3"), ("prerequisites", "None"),
        ("grading", "exam")]] = FileState.valid (prev ++ [data]) ∧
      data.map Prod.fst =
        ["code", "name", "description", "instructor", "semester",
         "classroom", "schedule", "prerequisites", "grading"] ∧
      "credits" ∉ data.map Prod.fst :=
  addCourse_persists_exactly_nine_keys
    [("code", "MA 101"), ("name", "Calculus"), ("instructor", "Prof. W"),
     ("semester", "Fall 2025"), ("schedule", "TTh 2-3"),
     ("classroom", "LT2"), ("prerequisites", "None"),
     ("grading", "exam"), ("description", ""), ("credits", "4")]
    FileState.absent "MA 101"
    (FileState.valid [[("code", "MA 101"), ("name", "Calculus"),
      ("description", ""), ("instructor", "Prof. W"),
      ("semester", "Fall 2025"), ("classroom", "LT2"),
      ("schedule", "TTh 2-3"), ("prerequisites", "None"),
      ("grading", "exam")]]) rfl

example : load_courses FileState.absent = Except.ok [] := rfl

example :
    add_course Method.post
      [("code", "CS 203"), ("name", "Software and Tools for AI"),
       ("instructor", "Prof. X"), ("semester", "Fall 2025"),
       ("schedule", "MWF 10-11"), ("classroom", "AB7/109"),
       ("prerequisites", "Python"), ("grading", "50/50"),
       ("description", "")] FileState.absent
    = Except.ok (AddResult.success "CS 203",
        FileState.valid [[("code", "CS 203"),
          ("name", "Software and Tools for AI"), ("description", ""),
          ("instructor", "Prof. X"), ("semester", "Fall 2025"),
          ("classroom", "AB7/109"), ("schedule", "MWF 10-11"),
          ("prerequisites", "Python"), ("grading", "50/50")]]) := by
  rfl
